import Mathlib

/-!
Verification development for the TalkSASA SMS client library.
The definitions below are shallow embeddings of the TypeScript source:
error classes from the errors module, the retry controller from the utils
module, error mapping and message sanitization from the API client,
validators, the rate limiter, and the OAuth2 token manager.
JavaScript strings are modelled as Lean String / List Char, machine
integers and Date.now timestamps as Nat or Int, thrown exceptions as
Except, and the absence of an object field as Option.
-/

set_option maxRecDepth 4000

/-- Error object model shared by all TalkSASA error classes: the class is
identified by its name string, and it carries a message, an optional HTTP
status code and the isRetryable flag. -/
structure ErrObj where
  name : String
  message : String
  statusCode : Option Nat
  isRetryable : Bool
deriving DecidableEq, Repr

/-- Constructor of TalkSASAAPIError: message, optional status code and an
explicit isRetryable flag (the source defaults it to false). -/
def mkAPIError (message : String) (statusCode : Option Nat) (isRetryable : Bool) : ErrObj :=
  ⟨"TalkSASAAPIError", message, statusCode, isRetryable⟩

/-- Constructor of TalkSASAValidationError: statusCode 400, never retryable. -/
def mkValidationError (message : String) : ErrObj :=
  ⟨"TalkSASAValidationError", message, some 400, false⟩

/-- Constructor of TalkSASANetworkError: no status code, always retryable. -/
def mkNetworkError (message : String) : ErrObj :=
  ⟨"TalkSASANetworkError", message, none, true⟩

/-- Constructor of TalkSASAAuthenticationError: statusCode 401, never retryable. -/
def mkAuthenticationError (message : String) : ErrObj :=
  ⟨"TalkSASAAuthenticationError", message, some 401, false⟩

/-- Constructor of TalkSASAQuotaExceededError: statusCode 429, retryable. -/
def mkQuotaExceededError (message : String) : ErrObj :=
  ⟨"TalkSASAQuotaExceededError", message, some 429, true⟩

/-- Constructor of TalkSASAInsufficientBalanceError: statusCode 402, never retryable. -/
def mkInsufficientBalanceError (message : String) : ErrObj :=
  ⟨"TalkSASAInsufficientBalanceError", message, some 402, false⟩

/-- RetryOptions from the types module: maxRetries, retryDelay (ms) and
backoffMultiplier. -/
structure RetryOptions where
  maxRetries : Nat
  retryDelay : Nat
  backoffMultiplier : Nat
deriving DecidableEq, Repr

/-- An error thrown by a retried operation. The tag distinguishes error
instances; isRetryableField is some b when the JavaScript error object has
an isRetryable property with value b, and none when the property is absent
(the source checks membership with the in operator before reading it). -/
structure RetryErr where
  tag : Nat
  isRetryableField : Option Bool
deriving DecidableEq, Repr

/-- Observable outcome of Utils.retry: the final result, the number of
times the operation was invoked, and the list of backoff delays slept
between consecutive attempts, in order. -/
structure RetryOutcome (α : Type) where
  result : Except RetryErr α
  calls : Nat
  delays : List Nat
deriving Repr

/-- Loop body of Utils.retry. The operation is modelled as a function from
the 0-based attempt index to the outcome of that invocation. remaining is
the number of loop iterations still allowed after the current one, so the
source loop for attempt in 0..maxRetries corresponds to starting at
attempt 0 with remaining = maxRetries; remaining = 0 is the condition
attempt === options.maxRetries under which the source breaks without
retrying. The non-retryable break fires when the error object carries an
isRetryable property that is exactly false. -/
def Utils.retryFrom {α : Type} (op : Nat → Except RetryErr α) (options : RetryOptions) :
    Nat → Nat → RetryOutcome α
  | attempt, 0 =>
    match op attempt with
    | Except.ok v => ⟨Except.ok v, 1, []⟩
    | Except.error e => ⟨Except.error e, 1, []⟩
  | attempt, r + 1 =>
    match op attempt with
    | Except.ok v => ⟨Except.ok v, 1, []⟩
    | Except.error e =>
      if e.isRetryableField = some false then
        ⟨Except.error e, 1, []⟩
      else
        let delay := options.retryDelay * options.backoffMultiplier ^ attempt
        let rest := Utils.retryFrom op options (attempt + 1) r
        ⟨rest.result, rest.calls + 1, delay :: rest.delays⟩

/-- Utils.retry from the utils module: run the operation with exponential
backoff, at most maxRetries + 1 invocations in total. -/
def Utils.retry {α : Type} (op : Nat → Except RetryErr α) (options : RetryOptions) :
    RetryOutcome α :=
  Utils.retryFrom op options 0 options.maxRetries

lemma Utils.retryFrom_calls_le {α : Type} (op : Nat → Except RetryErr α)
    (options : RetryOptions) : ∀ r attempt,
    (Utils.retryFrom op options attempt r).calls ≤ r + 1 := by
  intro r
  induction r with
  | zero =>
    intro attempt
    simp only [Utils.retryFrom]
    cases op attempt <;> simp
  | succ r ih =>
    intro attempt
    simp only [Utils.retryFrom]
    cases hop : op attempt with
    | ok v => simp
    | error e =>
      by_cases h : e.isRetryableField = some false
      · simp [h]
      · simp only [h, if_false]
        show (Utils.retryFrom op options (attempt + 1) r).calls + 1 ≤ r + 1 + 1
        have := ih (attempt + 1)
        omega

lemma Utils.retryFrom_nonretryable {α : Type} (op : Nat → Except RetryErr α)
    (options : RetryOptions) (r attempt : Nat) (e : RetryErr)
    (hop : op attempt = Except.error e) (hnr : e.isRetryableField = some false) :
    Utils.retryFrom op options attempt r = ⟨Except.error e, 1, []⟩ := by
  cases r with
  | zero => simp [Utils.retryFrom, hop]
  | succ r => simp [Utils.retryFrom, hop, hnr]

lemma Utils.retryFrom_delays_eq {α : Type} (op : Nat → Except RetryErr α)
    (options : RetryOptions) : ∀ r attempt, ∃ k,
    (Utils.retryFrom op options attempt r).delays =
      (List.range k).map
        (fun j => options.retryDelay * options.backoffMultiplier ^ (attempt + j)) := by
  intro r
  induction r with
  | zero =>
    intro attempt
    refine ⟨0, ?_⟩
    simp only [Utils.retryFrom]
    cases op attempt <;> simp
  | succ r ih =>
    intro attempt
    simp only [Utils.retryFrom]
    cases hop : op attempt with
    | ok v => exact ⟨0, by simp⟩
    | error e =>
      by_cases hnr : e.isRetryableField = some false
      · exact ⟨0, by simp [hnr]⟩
      · simp only [hnr, if_false]
        obtain ⟨k, hk⟩ := ih (attempt + 1)
        refine ⟨k + 1, ?_⟩
        show options.retryDelay * options.backoffMultiplier ^ attempt ::
          (Utils.retryFrom op options (attempt + 1) r).delays =
          (List.range (k + 1)).map
            (fun j => options.retryDelay * options.backoffMultiplier ^ (attempt + j))
        have htail : List.map
            (fun j => options.retryDelay * options.backoffMultiplier ^ (attempt + 1 + j))
            (List.range k) = List.map
            ((fun j => options.retryDelay * options.backoffMultiplier ^ (attempt + j)) ∘
              Nat.succ) (List.range k) := by
          apply List.map_congr_left
          intro j _
          show options.retryDelay * options.backoffMultiplier ^ (attempt + 1 + j) =
            options.retryDelay * options.backoffMultiplier ^ (attempt + (j + 1))
          congr 2
          omega
        rw [hk, List.range_succ_eq_map, List.map_cons, List.map_map, ← htail]
        simp

lemma Utils.retryFrom_exhaust {α : Type} (op : Nat → Except RetryErr α)
    (options : RetryOptions) (errs : Nat → RetryErr) : ∀ r attempt,
    (∀ j, j ≤ r → op (attempt + j) = Except.error (errs (attempt + j))) →
    (∀ j, j < r → (errs (attempt + j)).isRetryableField ≠ some false) →
    (Utils.retryFrom op options attempt r).result = Except.error (errs (attempt + r)) ∧
    (Utils.retryFrom op options attempt r).calls = r + 1 := by
  intro r
  induction r with
  | zero =>
    intro attempt hop _
    have h0 := hop 0 (Nat.le_refl 0)
    simp only [Nat.add_zero] at h0
    simp [Utils.retryFrom, h0]
  | succ r ih =>
    intro attempt hop hret
    have h0 := hop 0 (Nat.zero_le _)
    simp only [Nat.add_zero] at h0
    have hr0 : (errs attempt).isRetryableField ≠ some false := by
      have := hret 0 (Nat.succ_pos r)
      simpa using this
    simp only [Utils.retryFrom, h0]
    rw [if_neg hr0]
    have ih2 := ih (attempt + 1)
      (fun j hj => by
        have := hop (j + 1) (by omega)
        have harg : attempt + (j + 1) = attempt + 1 + j := by omega
        rw [harg] at this
        exact this)
      (fun j hj => by
        have := hret (j + 1) (by omega)
        have harg : attempt + (j + 1) = attempt + 1 + j := by omega
        rw [harg] at this
        exact this)
    have harg2 : attempt + 1 + r = attempt + (r + 1) := by omega
    rw [harg2] at ih2
    constructor
    · show (Utils.retryFrom op options (attempt + 1) r).result =
        Except.error (errs (attempt + (r + 1)))
      exact ih2.1
    · show (Utils.retryFrom op options (attempt + 1) r).calls + 1 = r + 1 + 1
      rw [ih2.2]

/-- C1 (amended): for every operation and retry options, Utils.retry
invokes the operation at most maxRetries + 1 times in total (the source
loop runs attempt = 0..maxRetries inclusive); an operation whose first
error carries an explicit isRetryable = false is invoked exactly once and
that error is propagated unchanged; the delay slept after the failed
attempt with 0-based index i is retryDelay * backoffMultiplier ^ i; and
when all maxRetries + 1 attempts fail with errors not explicitly marked
non-retryable, the operation is invoked exactly maxRetries + 1 times and
the last error is propagated unchanged. -/
theorem c1_retry_theorem {α : Type} (op : Nat → Except RetryErr α) (options : RetryOptions) :
    (Utils.retry op options).calls ≤ options.maxRetries + 1
    ∧ (∀ e : RetryErr, op 0 = Except.error e → e.isRetryableField = some false →
        Utils.retry op options = ⟨Except.error e, 1, []⟩)
    ∧ (Utils.retry op options).delays =
        (List.range (Utils.retry op options).delays.length).map
          (fun i => options.retryDelay * options.backoffMultiplier ^ i)
    ∧ (∀ errs : Nat → RetryErr,
        (∀ i, i ≤ options.maxRetries → op i = Except.error (errs i)) →
        (∀ i, i < options.maxRetries → (errs i).isRetryableField ≠ some false) →
        (Utils.retry op options).result = Except.error (errs options.maxRetries) ∧
        (Utils.retry op options).calls = options.maxRetries + 1) := by
  refine ⟨?_, ?_, ?_, ?_⟩
  · exact Utils.retryFrom_calls_le op options options.maxRetries 0
  · intro e hop hnr
    exact Utils.retryFrom_nonretryable op options options.maxRetries 0 e hop hnr
  · obtain ⟨k, hk⟩ := Utils.retryFrom_delays_eq op options options.maxRetries 0
    have hd : (Utils.retry op options).delays =
        (List.range k).map (fun j => options.retryDelay * options.backoffMultiplier ^ j) := by
      show (Utils.retryFrom op options 0 options.maxRetries).delays = _
      rw [hk]
      apply List.map_congr_left
      intro j _
      simp
    rw [hd]
    simp
  · intro errs hop hret
    have := Utils.retryFrom_exhaust op options errs options.maxRetries 0
      (fun j hj => by simpa using hop j hj)
      (fun j hj => by simpa using hret j hj)
    simpa using this

/-- Witness for C1: an operation whose error explicitly sets
isRetryable = false is invoked exactly once under maxRetries = 3. -/
theorem c1_retry_witness :
    Utils.retry (fun _ => (Except.error ⟨7, some false⟩ : Except RetryErr Nat))
      ⟨3, 1000, 2⟩ = ⟨Except.error ⟨7, some false⟩, 1, []⟩ :=
  (c1_retry_theorem (fun _ => (Except.error ⟨7, some false⟩ : Except RetryErr Nat))
    ⟨3, 1000, 2⟩).2.1 ⟨7, some false⟩ rfl rfl

/-- Counterexample to C1 as stated: with maxRetries = 3 an always-failing
retryable operation is invoked 4 times, exceeding the claimed bound of
maxAttempts = 3 total invocations. -/
theorem c1_counterexample :
    3 < (Utils.retry (fun i => (Except.error ⟨i, some true⟩ : Except RetryErr Nat))
      ⟨3, 1000, 2⟩).calls := by
  decide

/-- Whitespace class of the JavaScript regex escape backslash-s, restricted
to the ASCII range (space, tab, line feed, vertical tab, form feed,
carriage return). -/
def jsIsSpace (c : Char) : Bool :=
  c = ' ' || c = Char.ofNat 9 || c = Char.ofNat 10 || c = Char.ofNat 11 ||
  c = Char.ofNat 12 || c = Char.ofNat 13

/-- Case-insensitive match of a lowercase key at the head of the input;
returns the remaining characters on success. -/
def matchKeyCI : List Char → List Char → Option (List Char)
  | [], cs => some cs
  | _ :: _, [] => none
  | k :: ks, c :: cs => if c.toLower = k then matchKeyCI ks cs else none

/-- Greedy run of characters that are neither whitespace nor a comma,
mirroring the character class of the sanitization regexes; returns the run
and the rest. -/
def takeValue : List Char → List Char × List Char
  | [] => ([], [])
  | c :: cs =>
    if jsIsSpace c || c = ',' then ([], c :: cs)
    else
      let p := takeValue cs
      (c :: p.1, p.2)

/-- Drop leading whitespace, mirroring a greedy whitespace star. Because
the value class excludes whitespace, greedy matching here coincides with
the backtracking regex semantics. -/
def dropWs : List Char → List Char
  | [] => []
  | c :: cs => if jsIsSpace c then dropWs cs else c :: cs

/-- Match one key-value pair at the head of the input: the key
(case-insensitively), one of = or :, optional whitespace, then a nonempty
run of non-whitespace non-comma characters; returns the rest after the
match. -/
def matchKV (key : List Char) (cs : List Char) : Option (List Char) :=
  match matchKeyCI key cs with
  | none => none
  | some rest1 =>
    match rest1 with
    | [] => none
    | sep :: rest2 =>
      if sep = '=' || sep = ':' then
        let p := takeValue (dropWs rest2)
        if p.1.isEmpty then none else some p.2
      else none

/-- Global regex replacement of every key-value match with the literal
lowercase replacement text key=***. The scan advances one character on a
failed match and jumps past the matched text on success, exactly as a
global JavaScript string replace does. fuel bounds the recursion; it is
instantiated with the input length, which suffices because every step
consumes at least one character. -/
def replaceScanF (key : List Char) : Nat → List Char → List Char
  | 0, cs => cs
  | _ + 1, [] => []
  | fuel + 1, c :: cs =>
    match matchKV key (c :: cs) with
    | some rest => key ++ ('=' :: '*' :: '*' :: '*' :: []) ++ replaceScanF key fuel rest
    | none => c :: replaceScanF key fuel cs

/-- Replacement of every key-value pair for one key over a string. -/
def replaceKV (key : String) (s : String) : String :=
  String.mk (replaceScanF key.data s.data.length s.data)

/-- TalkSASAClient.sanitizeErrorMessage: scrub password, token, key and
secret key-value pairs, then truncate to 500 characters appending an
ellipsis when over the limit. An empty message (falsy in the source)
yields the fixed text Unknown error. -/
def sanitizeErrorMessage (message : String) : String :=
  if message = "" then "Unknown error"
  else
    let sanitized :=
      replaceKV "secret" (replaceKV "key" (replaceKV "token" (replaceKV "password" message)))
    if sanitized.length > 500 then String.mk (sanitized.data.take 500) ++ "..." else sanitized

/-- C7 (amended): sanitizeErrorMessage replaces every password, token, key
and secret key-value pair (key, = or :, optional whitespace, then a
nonempty run of non-whitespace non-comma characters) with the key followed
by =***, and the returned string never exceeds 503 characters: messages
longer than 500 characters after scrubbing are cut to 500 characters with
a three-character ellipsis appended. -/
theorem c7_sanitize_theorem :
    (∀ message : String, (sanitizeErrorMessage message).length ≤ 503)
    ∧ sanitizeErrorMessage
        "Login failed: password=hunter2, token: abc123 key=xyz secret=s3cr3t" =
      "Login failed: password=***, token=*** key=*** secret=***" := by
  constructor
  · intro message
    unfold sanitizeErrorMessage
    split
    · decide
    · generalize replaceKV "secret"
        (replaceKV "key" (replaceKV "token" (replaceKV "password" message))) = sanitized
      show (if sanitized.length > 500 then
        String.mk (sanitized.data.take 500) ++ "..." else sanitized).length ≤ 503
      split
      · rw [String.length_append]
        have h1 : (String.mk (sanitized.data.take 500)).length ≤ 500 := by
          show (sanitized.data.take 500).length ≤ 500
          simp [List.length_take]
        have h2 : ("..." : String).length = 3 := by decide
        omega
      · rename_i h
        omega
  · decide

/-- Counterexample to C7 as stated: a 501-character message with no
key-value pairs is returned with length 503 (500 characters plus the
appended ellipsis), exceeding the claimed 500-character bound. -/
theorem c7_counterexample :
    500 < (sanitizeErrorMessage (String.mk (List.replicate 501 'a'))).length := by
  decide

/-- Truthiness of an optional JavaScript string field: present and
nonempty (the empty string is falsy). -/
def jsTruthyStr (s : Option String) : Bool :=
  match s with
  | none => false
  | some v => v ≠ ""

/-- Utils.extractErrorMessage restricted to the message field of the error
object (the only field populated in the transport failures modelled here):
a truthy message is returned, otherwise the fixed fallback text. -/
def Utils.extractErrorMessage (message : Option String) : String :=
  if jsTruthyStr message then message.getD "" else "Unknown error occurred"

/-- Utils.createNetworkError: wrap the extracted message in a
TalkSASANetworkError with the fixed prefix. -/
def Utils.createNetworkError (message : Option String) : ErrObj :=
  mkNetworkError ("Network error: " ++ Utils.extractErrorMessage message)

/-- Shape of an axios failure as inspected by handleError: either a
response was received (with its HTTP status and the optional message field
of the response body), or the request was sent but no response arrived
(message is the message of the underlying error), or neither field is
present. -/
inductive AxiosFailure where
  | response (status : Nat) (message : Option String)
  | request (message : Option String)
  | other (message : Option String)
deriving DecidableEq, Repr

/-- TalkSASAClient.handleError: map a transport failure to a typed error.
A received response maps 401, 402 and 429 to the dedicated error kinds and
every other status to a TalkSASAAPIError whose message is sanitized and
whose isRetryable flag is exactly statusCode greater than or equal to 500;
a request without response maps to a network error; anything else is
flattened to a fixed generic message. -/
def TalkSASAClient.handleError (error : AxiosFailure) : ErrObj :=
  match error with
  | AxiosFailure.response status message =>
    let sanitizedMessage :=
      sanitizeErrorMessage (if jsTruthyStr message then message.getD "" else "API request failed")
    if status = 401 then mkAuthenticationError "Authentication failed"
    else if status = 402 then mkInsufficientBalanceError "Insufficient balance"
    else if status = 429 then mkQuotaExceededError "Quota exceeded"
    else mkAPIError sanitizedMessage (some status) (decide (500 ≤ status))
  | AxiosFailure.request message => Utils.createNetworkError message
  | AxiosFailure.other _ => mkAPIError "An unexpected error occurred" none false

/-- C5: at the transport boundary of the API client, status 401 maps to
the authentication error kind (not retryable, statusCode 401), 402 to the
insufficient-balance kind (not retryable, 402), 429 to the quota kind
(retryable, 429); every other non-2xx status maps to the generic API error
kind with that statusCode and retryable exactly when the status is at
least 500; and a failure with a request but no response maps to the
network error kind, which is retryable and has no status code. -/
theorem c5_handle_error_theorem :
    (∀ m, TalkSASAClient.handleError (AxiosFailure.response 401 m) =
        mkAuthenticationError "Authentication failed"
      ∧ (TalkSASAClient.handleError (AxiosFailure.response 401 m)).isRetryable = false
      ∧ (TalkSASAClient.handleError (AxiosFailure.response 401 m)).statusCode = some 401)
    ∧ (∀ m, TalkSASAClient.handleError (AxiosFailure.response 402 m) =
        mkInsufficientBalanceError "Insufficient balance"
      ∧ (TalkSASAClient.handleError (AxiosFailure.response 402 m)).isRetryable = false
      ∧ (TalkSASAClient.handleError (AxiosFailure.response 402 m)).statusCode = some 402)
    ∧ (∀ m, TalkSASAClient.handleError (AxiosFailure.response 429 m) =
        mkQuotaExceededError "Quota exceeded"
      ∧ (TalkSASAClient.handleError (AxiosFailure.response 429 m)).isRetryable = true
      ∧ (TalkSASAClient.handleError (AxiosFailure.response 429 m)).statusCode = some 429)
    ∧ (∀ s m, s ≠ 401 → s ≠ 402 → s ≠ 429 → (s < 200 ∨ 300 ≤ s) →
        (TalkSASAClient.handleError (AxiosFailure.response s m)).name = "TalkSASAAPIError"
      ∧ (TalkSASAClient.handleError (AxiosFailure.response s m)).statusCode = some s
      ∧ ((TalkSASAClient.handleError (AxiosFailure.response s m)).isRetryable = true ↔ 500 ≤ s))
    ∧ (∀ m, (TalkSASAClient.handleError (AxiosFailure.request m)).name = "TalkSASANetworkError"
      ∧ (TalkSASAClient.handleError (AxiosFailure.request m)).isRetryable = true
      ∧ (TalkSASAClient.handleError (AxiosFailure.request m)).statusCode = none) := by
  refine ⟨?_, ?_, ?_, ?_, ?_⟩
  · intro m
    refine ⟨rfl, rfl, rfl⟩
  · intro m
    refine ⟨rfl, rfl, rfl⟩
  · intro m
    refine ⟨rfl, rfl, rfl⟩
  · intro s m h1 h2 h3 _
    simp only [TalkSASAClient.handleError]
    rw [if_neg h1, if_neg h2, if_neg h3]
    refine ⟨rfl, rfl, ?_⟩
    simp [mkAPIError]
  · intro m
    refine ⟨rfl, rfl, rfl⟩

/-- Witness for C5: status 503 maps to a retryable generic API error. -/
theorem c5_handle_error_witness :
    (TalkSASAClient.handleError (AxiosFailure.response 503 none)).name = "TalkSASAAPIError"
    ∧ (TalkSASAClient.handleError (AxiosFailure.response 503 none)).statusCode = some 503
    ∧ ((TalkSASAClient.handleError (AxiosFailure.response 503 none)).isRetryable = true ↔
        500 ≤ 503) :=
  c5_handle_error_theorem.2.2.2.1 503 none (by decide) (by decide) (by decide)
    (Or.inr (by decide))

/-- Digit class [0-9] of the JavaScript regexes, by code point. -/
def jsIsDigit (c : Char) : Bool :=
  decide (48 ≤ c.toNat) && decide (c.toNat ≤ 57)

/-- Result of stripping all non-digit characters, as the replace of the
non-digit class with the empty string does in the source. -/
def digitsOf (s : String) : List Char :=
  s.data.filter jsIsDigit

/-- The injection-prone characters rejected by formatPhoneNumber: angle
brackets, double and single quote, ampersand, semicolon, parentheses,
pipe, backtick, dollar and backslash (quotes, backtick and backslash are
written by code point). -/
def phoneDangerousChars : List Char :=
  ['<', '>', Char.ofNat 34, Char.ofNat 39, '&', ';', '(', ')', '|',
   Char.ofNat 96, '$', Char.ofNat 92]

/-- Containment check over the dangerous character list, mirroring the
per-character includes loop of the source. -/
def hasDangerousPhoneChar (s : String) : Bool :=
  s.data.any (fun c => phoneDangerousChars.contains c)

/-- Test of the anchored regex of validatePhoneNumber: one digit 1-9
followed by six to fourteen digits. -/
def phoneRegexTest (cleaned : List Char) : Bool :=
  match cleaned with
  | [] => false
  | c :: rest =>
    decide (49 ≤ c.toNat) && decide (c.toNat ≤ 57) && rest.all jsIsDigit &&
    decide (6 ≤ rest.length) && decide (rest.length ≤ 14)

/-- Validators.validatePhoneNumber: strip non-digits, require 7 to 15
digits, then test the anchored 1-9 leading-digit regex. -/
def Validators.validatePhoneNumber (phoneNumber : String) : Bool :=
  if (digitsOf phoneNumber).length < 7 || (digitsOf phoneNumber).length > 15 then false
  else phoneRegexTest (digitsOf phoneNumber)

/-- Test of the second anchored regex of formatPhoneNumber: seven to
fifteen characters, all digits. -/
def digitsRegexTest (cleaned : List Char) : Bool :=
  cleaned.all jsIsDigit && decide (7 ≤ cleaned.length) && decide (cleaned.length ≤ 15)

/-- Check whether the string starts with a plus sign. -/
def startsWithPlus (s : String) : Bool :=
  match s.data with
  | [] => false
  | c :: _ => c = '+'

/-- Validators.formatPhoneNumber: reject empty input, injection
characters, raw length over 50, digit counts outside 7 to 15 and a
leading zero digit; on success return the input itself when it already
starts with a plus, otherwise a plus followed by the stripped digits. -/
def Validators.formatPhoneNumber (phoneNumber : String) : Except ErrObj String :=
  if phoneNumber = "" then Except.error (mkValidationError "Phone number is required")
  else if hasDangerousPhoneChar phoneNumber then
    Except.error (mkValidationError "Phone number contains invalid characters")
  else if phoneNumber.length > 50 then
    Except.error (mkValidationError "Phone number is too long")
  else if !Validators.validatePhoneNumber phoneNumber then
    Except.error (mkValidationError ("Invalid phone number format: " ++ phoneNumber ++
      ". Phone number must be 7-15 digits long."))
  else if !digitsRegexTest (digitsOf phoneNumber) then
    Except.error (mkValidationError "Phone number contains invalid characters")
  else if startsWithPlus phoneNumber then Except.ok phoneNumber
  else Except.ok (String.mk ('+' :: digitsOf phoneNumber))

lemma char_toNat_inj {a b : Char} (h : a.toNat = b.toNat) : a = b :=
  Char.ext (UInt32.ext h)

lemma digitsOf_all (s : String) : (digitsOf s).all jsIsDigit = true := by
  rw [List.all_eq_true]
  intro c hc
  exact (List.mem_filter.mp hc).2

lemma digit_not_dangerous (c : Char) (h : jsIsDigit c = true) :
    phoneDangerousChars.contains c = false := by
  by_contra h2
  rw [Bool.not_eq_false] at h2
  have h3 : c ∈ phoneDangerousChars := by simpa using h2
  fin_cases h3 <;> exact absurd h (by decide)

lemma digitsOf_mk_plus (l : List Char) (hall : l.all jsIsDigit = true) :
    digitsOf (String.mk ('+' :: l)) = l := by
  show List.filter jsIsDigit ('+' :: l) = l
  rw [List.filter_cons]
  have hplus : jsIsDigit '+' = false := by decide
  rw [hplus]
  simp only [if_false, Bool.false_eq_true]
  exact List.filter_eq_self.mpr (List.all_eq_true.mp hall)

lemma hasDangerous_mk_plus (l : List Char) (hall : l.all jsIsDigit = true) :
    hasDangerousPhoneChar (String.mk ('+' :: l)) = false := by
  show List.any ('+' :: l) (fun c => phoneDangerousChars.contains c) = false
  rw [List.any_eq_false]
  intro c hc
  rcases List.mem_cons.mp hc with rfl | hmem
  · decide
  · rw [digit_not_dangerous c (List.all_eq_true.mp hall c hmem)]
    simp

lemma validatePhoneNumber_congr {a b : String} (h : digitsOf a = digitsOf b) :
    Validators.validatePhoneNumber a = Validators.validatePhoneNumber b := by
  unfold Validators.validatePhoneNumber
  rw [h]

lemma validatePhoneNumber_true {s : String} (h7 : 7 ≤ (digitsOf s).length)
    (h15 : (digitsOf s).length ≤ 15) (h0 : (digitsOf s).head? ≠ some '0') :
    Validators.validatePhoneNumber s = true := by
  unfold Validators.validatePhoneNumber
  rw [if_neg (by simp; omega)]
  cases hd : digitsOf s with
  | nil => rw [hd] at h7; simp at h7
  | cons c rest =>
    have hcd : jsIsDigit c = true := by
      have : c ∈ digitsOf s := by rw [hd]; exact List.mem_cons_self c rest
      exact (List.mem_filter.mp this).2
    have hne : c ≠ '0' := by
      intro hh
      rw [hd, hh] at h0
      exact h0 rfl
    have hcn : 48 ≤ c.toNat ∧ c.toNat ≤ 57 := by
      simp [jsIsDigit] at hcd
      exact hcd
    have hc48 : c.toNat ≠ 48 := by
      intro hh
      exact hne (char_toNat_inj (by rw [hh]; decide))
    have hrest : rest.all jsIsDigit = true := by
      have := digitsOf_all s
      rw [hd] at this
      simp only [List.all_cons, Bool.and_eq_true] at this
      exact this.2
    have hlen : rest.length + 1 = (digitsOf s).length := by rw [hd]; simp
    simp only [phoneRegexTest, hrest, Bool.and_eq_true, decide_eq_true_eq, and_true,
      true_and]
    omega

/-- C4 (amended): every input whose digit count is outside 7 to 15 is
rejected with a ValidationError; every input with digit count in 7 to 15,
first digit not 0, raw length at most 50 and none of the forbidden
characters is accepted, the output being the input itself when it already
starts with a plus sign (the source returns inputs starting with + verbatim,
without stripping their non-digit characters) and a plus followed by
exactly the digits of the input otherwise; and formatPhoneNumber is
idempotent on its own outputs. -/
theorem c4_format_theorem :
    (∀ s : String, ((digitsOf s).length < 7 ∨ 15 < (digitsOf s).length) →
      ∃ e, Validators.formatPhoneNumber s = Except.error e ∧
        e.name = "TalkSASAValidationError")
    ∧ (∀ s : String, 7 ≤ (digitsOf s).length → (digitsOf s).length ≤ 15 →
        (digitsOf s).head? ≠ some '0' → s.length ≤ 50 →
        hasDangerousPhoneChar s = false →
        Validators.formatPhoneNumber s =
          Except.ok (if startsWithPlus s then s else String.mk ('+' :: digitsOf s)))
    ∧ (∀ s out : String, Validators.formatPhoneNumber s = Except.ok out →
        Validators.formatPhoneNumber out = Except.ok out) := by
  refine ⟨?_, ?_, ?_⟩
  · intro s hout
    have hv : Validators.validatePhoneNumber s = false := by
      unfold Validators.validatePhoneNumber
      rw [if_pos (by simp; omega)]
    unfold Validators.formatPhoneNumber
    split_ifs with h1 h2 h3 h4 h5 h6 <;>
      first
        | exact ⟨_, rfl, rfl⟩
        | (exfalso; rw [hv] at h4; simp at h4)
  · intro s h7 h15 h0 h50 hdang
    have hne : ¬(s = "") := by
      intro hh
      rw [hh] at h7
      simp [digitsOf] at h7
    have hv : Validators.validatePhoneNumber s = true := validatePhoneNumber_true h7 h15 h0
    have hd2 : digitsRegexTest (digitsOf s) = true := by
      simp only [digitsRegexTest, digitsOf_all s, Bool.and_eq_true, decide_eq_true_eq,
        true_and]
      exact ⟨h7, h15⟩
    unfold Validators.formatPhoneNumber
    rw [if_neg hne, if_neg (by rw [hdang]; simp), if_neg (by omega),
      if_neg (by rw [hv]; simp), if_neg (by rw [hd2]; simp)]
    split_ifs with hsp
    · rfl
    · rfl
  · intro s out h
    unfold Validators.formatPhoneNumber at h
    split_ifs at h with h1 h2 h3 h4 h5 h6
    · have hout : out = s := (Except.ok.inj h).symm
      subst hout
      unfold Validators.formatPhoneNumber
      rw [if_neg h1, if_neg h2, if_neg h3, if_neg h4, if_neg h5, if_pos h6]
    · have hout : out = String.mk ('+' :: digitsOf s) := (Except.ok.inj h).symm
      have hall : (digitsOf s).all jsIsDigit = true := digitsOf_all s
      have hvs : Validators.validatePhoneNumber s = true := by
        rw [Bool.not_eq_true'] at h4
        simpa using h4
      have hds : digitsRegexTest (digitsOf s) = true := by
        rw [Bool.not_eq_true'] at h5
        simpa using h5
      have hdig : digitsOf out = digitsOf s := by
        rw [hout]
        exact digitsOf_mk_plus (digitsOf s) hall
      have hne2 : ¬(out = "") := by
        intro hh
        rw [hout] at hh
        have := congrArg String.data hh
        simp at this
      have hdang2 : hasDangerousPhoneChar out = false := by
        rw [hout]
        exact hasDangerous_mk_plus (digitsOf s) hall
      have hlen2 : ¬(out.length > 50) := by
        have hlen15 : (digitsOf s).length ≤ 15 := by
          simp only [digitsRegexTest, Bool.and_eq_true, decide_eq_true_eq] at hds
          exact hds.2
        have : out.length = (digitsOf s).length + 1 := by
          rw [hout]
          show ('+' :: digitsOf s).length = _
          simp
        omega
      have hv2 : Validators.validatePhoneNumber out = true := by
        rw [validatePhoneNumber_congr hdig]
        exact hvs
      have hd22 : digitsRegexTest (digitsOf out) = true := by
        rw [hdig]
        exact hds
      have hsp2 : startsWithPlus out = true := by
        rw [hout]
        rfl
      unfold Validators.formatPhoneNumber
      rw [if_neg hne2, if_neg (by rw [hdang2]; simp), if_neg hlen2,
        if_neg (by rw [hv2]; simp), if_neg (by rw [hd22]; simp), if_pos hsp2]

/-- Witness for C4: a 9-digit input without a plus prefix is normalized to
a plus followed by its digits. -/
theorem c4_format_witness :
    Validators.formatPhoneNumber "712345678" = Except.ok "+712345678" := by
  have := c4_format_theorem.2.1 "712345678" (by decide) (by decide) (by decide)
    (by decide) (by decide)
  simpa using this

/-- Counterexample to C4 as stated: an input that starts with a plus and
contains a space is returned verbatim, not as a plus followed by its
digits only. -/
theorem c4_counterexample :
    Validators.formatPhoneNumber "+1 234567890" = Except.ok "+1 234567890"
    ∧ "+1 234567890" ≠ String.mk ('+' :: digitsOf "+1 234567890") := by
  constructor
  · rfl
  · decide

/-- Substring match at the head of the haystack. -/
def matchesAt : List Char → List Char → Bool
  | [], _ => true
  | _ :: _, [] => false
  | n :: ns, h :: hs => n = h && matchesAt ns hs

/-- Substring containment test over character lists. -/
def containsSub (needle : List Char) : List Char → Bool
  | [] => needle.isEmpty
  | c :: rest => matchesAt needle (c :: rest) || containsSub needle rest

/-- Match at the head for the pattern of two letters s, h followed by a
whitespace character. -/
def shWsAt : List Char → Bool
  | 's' :: 'h' :: c :: _ => jsIsSpace c
  | _ => false

/-- Containment test for the pattern s, h, whitespace. -/
def shWs : List Char → Bool
  | [] => false
  | c :: rest => shWsAt (c :: rest) || shWs rest

/-- Lowercased character list of a string, giving the case-insensitive
regex tests their usual ASCII folding. -/
def toLowerList (s : String) : List Char :=
  s.data.map Char.toLower

/-- The fixed attack-pattern scan of validateApiKey over the trimmed key:
directory traversal, protocol confusion, script and javascript markers,
eval, exec and system calls, and the shell, cmd, powershell, bash and
sh-plus-whitespace tokens, all case-insensitive. -/
def apiKeyAttack (trimmed : String) : Bool :=
  containsSub ['.', '.'] (toLowerList trimmed) ||
  containsSub ['/', '/'] (toLowerList trimmed) ||
  containsSub "<script".data (toLowerList trimmed) ||
  containsSub "javascript:".data (toLowerList trimmed) ||
  containsSub "eval(".data (toLowerList trimmed) ||
  containsSub "exec(".data (toLowerList trimmed) ||
  containsSub "system(".data (toLowerList trimmed) ||
  containsSub "shell".data (toLowerList trimmed) ||
  containsSub "cmd".data (toLowerList trimmed) ||
  containsSub "powershell".data (toLowerList trimmed) ||
  containsSub "bash".data (toLowerList trimmed) ||
  shWs (toLowerList trimmed)

/-- Test of the anchored printable-ASCII regex: nonempty and every
character in code points 32 to 126. -/
def printableAscii (s : String) : Bool :=
  !s.data.isEmpty && s.data.all (fun c => decide (32 ≤ c.toNat) && decide (c.toNat ≤ 126))

/-- Drop leading whitespace characters from a character list. -/
def trimLeftL : List Char → List Char
  | [] => []
  | c :: cs => if jsIsSpace c then trimLeftL cs else c :: cs

/-- JavaScript String.prototype.trim over the ASCII whitespace set:
remove leading and trailing whitespace. Defined structurally so that it
evaluates inside the kernel, unlike the builtin byte-position trim. -/
def jsTrim (s : String) : String :=
  String.mk ((trimLeftL (trimLeftL s.data).reverse).reverse)

/-- Validators.validateApiKey: reject empty keys, raw length over 200,
whitespace-only keys and raw length under 10; then reject keys whose
trimmed form fails the printable-ASCII test or matches an attack pattern;
otherwise return the trimmed key. -/
def Validators.validateApiKey (apiKey : String) : Except ErrObj String :=
  if apiKey = "" then Except.error (mkValidationError "API key is required")
  else if apiKey.length > 200 then
    Except.error (mkValidationError "API key is too long for processing")
  else if (jsTrim apiKey).length = 0 then
    Except.error (mkValidationError "API key cannot be empty")
  else if apiKey.length < 10 then
    Except.error (mkValidationError "API key appears to be invalid")
  else if !printableAscii (jsTrim apiKey) then
    Except.error (mkValidationError "API key contains invalid characters")
  else if apiKeyAttack (jsTrim apiKey) then
    Except.error (mkValidationError "API key contains potentially malicious content")
  else Except.ok (jsTrim apiKey)

/-- C8: validateApiKey rejects the 5-character key short with a
ValidationError; every key equal to its own trim, of raw length 10 to 200,
passing the printable-ASCII test (code points 32 to 126, which includes
the pipe character) and matching none of the fixed attack patterns is
returned unchanged; in particular a pipe-separated key is returned as is. -/
theorem c8_api_key_theorem :
    Validators.validateApiKey "short" =
      Except.error (mkValidationError "API key appears to be invalid")
    ∧ (∀ s : String, jsTrim s = s → 10 ≤ s.length → s.length ≤ 200 →
        printableAscii s = true → apiKeyAttack s = false →
        Validators.validateApiKey s = Except.ok s)
    ∧ Validators.validateApiKey "api|key|with|pipes" = Except.ok "api|key|with|pipes" := by
  refine ⟨rfl, ?_, rfl⟩
  intro s htrim h10 h200 hprint hattack
  have hne : ¬(s = "") := by
    intro hh
    rw [hh] at h10
    simp [String.length] at h10
  have htl : ¬((jsTrim s).length = 0) := by
    rw [htrim]
    intro hh
    apply hne
    have : s.data = [] := List.length_eq_zero.mp hh
    cases s
    subst this
    rfl
  unfold Validators.validateApiKey
  rw [if_neg hne, if_neg (by omega), if_neg htl, if_neg (by omega), htrim,
    if_neg (by rw [hprint]; simp), if_neg (by rw [hattack]; simp)]

/-- Witness for C8: a plain 11-character alphanumeric key is returned
unchanged. -/
theorem c8_api_key_witness :
    Validators.validateApiKey "abcdefgh123" = Except.ok "abcdefgh123" :=
  c8_api_key_theorem.2.1 "abcdefgh123" (by decide) (by decide) (by decide)
    (by decide) (by decide)

/-- RateLimitConfig from the rate-limiter module. -/
structure RateLimitConfig where
  maxRequests : Nat
  windowMs : Nat
  blockDurationMs : Nat
deriving DecidableEq, Repr

/-- RateLimitEntry from the rate-limiter module: the request count in the
current window, the instant the window resets, and the instant an active
block expires, when one was imposed. -/
structure RateLimitEntry where
  count : Nat
  resetTime : Nat
  blockedUntil : Option Nat
deriving DecidableEq, Repr

/-- The Map of entries keyed by identifier, as an association list with
unique keys (JavaScript Map keys are unique). -/
abbrev ReqMap := List (String × RateLimitEntry)

/-- Map.get. -/
def lookupEntry : ReqMap → String → Option RateLimitEntry
  | [], _ => none
  | (k, e) :: rest, key => if k = key then some e else lookupEntry rest key

/-- Map.set: overwrite the entry for an existing key in place, append a
new key at the end. -/
def setEntry : ReqMap → String → RateLimitEntry → ReqMap
  | [], key, e => [(key, e)]
  | (k, e0) :: rest, key, e =>
    if k = key then (k, e) :: rest else (k, e0) :: setEntry rest key e

/-- Map.delete. -/
def deleteEntry : ReqMap → String → ReqMap
  | [], _ => []
  | (k, e) :: rest, key => if k = key then rest else (k, e) :: deleteEntry rest key

/-- RateLimiter state: the entry map and the configuration. -/
structure RateLimiter where
  requests : ReqMap
  config : RateLimitConfig

/-- RateLimiter.cleanup: drop every entry whose window has expired and
whose block, if any, has also expired. A blockedUntil of 0 is falsy in the
source and the entry is dropped once the window expires; the numeric
comparison used here agrees with that because now is at least 0. -/
def RateLimiter.cleanup (now : Nat) (m : ReqMap) : ReqMap :=
  m.filter (fun p =>
    !(decide (p.2.resetTime ≤ now) &&
      (match p.2.blockedUntil with
       | none => true
       | some b => decide (b ≤ now))))

/-- Whether the entry carries a block that is still active at the given
instant, mirroring the truthiness test of the source (a block instant of 0
is falsy there and never satisfies now less than 0 here). -/
def blockActive (e : RateLimitEntry) (now : Nat) : Bool :=
  match e.blockedUntil with
  | none => false
  | some b => decide (now < b)

/-- RateLimiter.isAllowed: read the entry, clean up expired entries,
reject while blocked, open a fresh window when absent or expired, impose a
block when the count has reached the maximum, otherwise increment and
accept. Returns the decision and the updated state. -/
def RateLimiter.isAllowed (rl : RateLimiter) (identifier : String) (now : Nat) :
    Bool × RateLimiter :=
  match lookupEntry rl.requests identifier with
  | none =>
    (true, ⟨setEntry (RateLimiter.cleanup now rl.requests) identifier
      ⟨1, now + rl.config.windowMs, none⟩, rl.config⟩)
  | some e =>
    if blockActive e now then (false, ⟨RateLimiter.cleanup now rl.requests, rl.config⟩)
    else if e.resetTime ≤ now then
      (true, ⟨setEntry (RateLimiter.cleanup now rl.requests) identifier
        ⟨1, now + rl.config.windowMs, none⟩, rl.config⟩)
    else if rl.config.maxRequests ≤ e.count then
      (false, ⟨setEntry (RateLimiter.cleanup now rl.requests) identifier
        ⟨e.count, e.resetTime, some (now + rl.config.blockDurationMs)⟩, rl.config⟩)
    else
      (true, ⟨setEntry (RateLimiter.cleanup now rl.requests) identifier
        ⟨e.count + 1, e.resetTime, e.blockedUntil⟩, rl.config⟩)

/-- RateLimiter.reset: delete the entry of one identifier. -/
def RateLimiter.reset (rl : RateLimiter) (identifier : String) : RateLimiter :=
  ⟨deleteEntry rl.requests identifier, rl.config⟩

lemma lookupEntry_setEntry_self (m : ReqMap) (key : String) (e : RateLimitEntry) :
    lookupEntry (setEntry m key e) key = some e := by
  induction m with
  | nil => simp [setEntry, lookupEntry]
  | cons p rest ih =>
    obtain ⟨k, e0⟩ := p
    by_cases hk : k = key
    · simp [setEntry, lookupEntry, hk]
    · simp [setEntry, lookupEntry, hk, ih]

lemma lookupEntry_deleteEntry_ne (m : ReqMap) (key k2 : String) (h : k2 ≠ key) :
    lookupEntry (deleteEntry m key) k2 = lookupEntry m k2 := by
  induction m with
  | nil => rfl
  | cons p rest ih =>
    obtain ⟨k, e0⟩ := p
    by_cases hk : k = key
    · subst hk
      have hdel : deleteEntry ((k, e0) :: rest) k = rest := by simp [deleteEntry]
      rw [hdel]
      show lookupEntry rest k2 = if k = k2 then some e0 else lookupEntry rest k2
      rw [if_neg (fun hh : k = k2 => h (hh.symm))]
    · simp only [deleteEntry, if_neg hk, lookupEntry]
      by_cases hk2 : k = k2
      · rw [if_pos hk2, if_pos hk2]
      · rw [if_neg hk2, if_neg hk2]
        exact ih

lemma lookupEntry_eq_none_of_keys (m : ReqMap) (key : String)
    (h : ∀ p ∈ m, p.1 ≠ key) : lookupEntry m key = none := by
  induction m with
  | nil => rfl
  | cons p rest ih =>
    obtain ⟨k, e0⟩ := p
    simp only [lookupEntry]
    rw [if_neg (h (k, e0) (List.mem_cons_self _ _))]
    exact ih (fun q hq => h q (List.mem_cons_of_mem _ hq))

lemma lookupEntry_deleteEntry_self (m : ReqMap) (key : String)
    (hnd : (m.map Prod.fst).Nodup) : lookupEntry (deleteEntry m key) key = none := by
  induction m with
  | nil => rfl
  | cons p rest ih =>
    obtain ⟨k, e0⟩ := p
    simp only [List.map_cons, List.nodup_cons] at hnd
    by_cases hk : k = key
    · subst hk
      simp only [deleteEntry, if_pos rfl]
      apply lookupEntry_eq_none_of_keys
      intro q hq hq1
      apply hnd.1
      rw [← hq1]
      exact List.mem_map_of_mem Prod.fst hq
    · simp only [deleteEntry, if_neg hk, lookupEntry]
      exact ih hnd.2

lemma RateLimiter.isAllowed_fresh (rl : RateLimiter) (identifier : String) (now : Nat)
    (h : lookupEntry rl.requests identifier = none) :
    rl.isAllowed identifier now = (true, ⟨setEntry (RateLimiter.cleanup now rl.requests)
      identifier ⟨1, now + rl.config.windowMs, none⟩, rl.config⟩) := by
  unfold RateLimiter.isAllowed
  rw [h]

lemma RateLimiter.isAllowed_blocked (rl : RateLimiter) (identifier : String) (now : Nat)
    (e : RateLimitEntry) (h : lookupEntry rl.requests identifier = some e)
    (hb : blockActive e now = true) :
    rl.isAllowed identifier now = (false, ⟨RateLimiter.cleanup now rl.requests, rl.config⟩) := by
  unfold RateLimiter.isAllowed
  rw [h]
  simp only [hb, if_true]

lemma RateLimiter.isAllowed_increment (rl : RateLimiter) (identifier : String) (now : Nat)
    (e : RateLimitEntry) (h : lookupEntry rl.requests identifier = some e)
    (hb : blockActive e now = false) (hw : ¬(e.resetTime ≤ now))
    (hc : ¬(rl.config.maxRequests ≤ e.count)) :
    rl.isAllowed identifier now = (true, ⟨setEntry (RateLimiter.cleanup now rl.requests)
      identifier ⟨e.count + 1, e.resetTime, e.blockedUntil⟩, rl.config⟩) := by
  unfold RateLimiter.isAllowed
  rw [h]
  simp only [hb, Bool.false_eq_true, if_false, if_neg hw, if_neg hc]

lemma RateLimiter.isAllowed_block (rl : RateLimiter) (identifier : String) (now : Nat)
    (e : RateLimitEntry) (h : lookupEntry rl.requests identifier = some e)
    (hb : blockActive e now = false) (hw : ¬(e.resetTime ≤ now))
    (hc : rl.config.maxRequests ≤ e.count) :
    rl.isAllowed identifier now = (false, ⟨setEntry (RateLimiter.cleanup now rl.requests)
      identifier ⟨e.count, e.resetTime, some (now + rl.config.blockDurationMs)⟩,
      rl.config⟩) := by
  unfold RateLimiter.isAllowed
  rw [h]
  simp only [hb, Bool.false_eq_true, if_false, if_neg hw, if_pos hc]

lemma RateLimiter.cleanup_keep_window (now : Nat) (k : String) (e : RateLimitEntry)
    (m : ReqMap) (h : ¬(e.resetTime ≤ now)) :
    RateLimiter.cleanup now ((k, e) :: m) = (k, e) :: RateLimiter.cleanup now m := by
  simp [RateLimiter.cleanup, List.filter_cons, h]

lemma RateLimiter.cleanup_keep_block (now : Nat) (k : String) (e : RateLimitEntry)
    (m : ReqMap) (b : Nat) (hb : e.blockedUntil = some b) (h : ¬(b ≤ now)) :
    RateLimiter.cleanup now ((k, e) :: m) = (k, e) :: RateLimiter.cleanup now m := by
  simp [RateLimiter.cleanup, List.filter_cons, hb, h]

/-- Sequencing helper for admission checks: run isAllowed once per instant
in the list, threading the state, and collect the decisions. -/
def runCalls (rl : RateLimiter) (identifier : String) : List Nat → List Bool × RateLimiter
  | [] => ([], rl)
  | t :: ts =>
    ((rl.isAllowed identifier t).1 :: (runCalls (rl.isAllowed identifier t).2 identifier ts).1,
     (runCalls (rl.isAllowed identifier t).2 identifier ts).2)

/-- C2: with maxRequests 3 and a 60000 ms window, four consecutive
admission checks for one identifier within one window, starting from an
empty map, yield true, true, true, false; the fourth check stores a block
until its instant plus blockDurationMs while leaving the count at 3; and
any later check before that block instant has passed is rejected. -/
theorem c2_rate_limiter_theorem (blockDur t1 t2 t3 t4 t5 : Nat)
    (h12 : t1 ≤ t2) (h23 : t2 ≤ t3) (h34 : t3 ≤ t4) (h45 : t4 ≤ t5)
    (hwin : t4 < t1 + 60000) (hblk : t5 < t4 + blockDur) :
    (runCalls ⟨[], ⟨3, 60000, blockDur⟩⟩ "x" [t1, t2, t3, t4]).1 =
      [true, true, true, false]
    ∧ lookupEntry (runCalls ⟨[], ⟨3, 60000, blockDur⟩⟩ "x" [t1, t2, t3, t4]).2.requests
        "x" = some ⟨3, t1 + 60000, some (t4 + blockDur)⟩
    ∧ ((runCalls ⟨[], ⟨3, 60000, blockDur⟩⟩ "x" [t1, t2, t3, t4]).2.isAllowed "x" t5).1 =
        false := by
  have e1 : (⟨[], ⟨3, 60000, blockDur⟩⟩ : RateLimiter).isAllowed "x" t1 =
      (true, ⟨[("x", ⟨1, t1 + 60000, none⟩)], ⟨3, 60000, blockDur⟩⟩) := rfl
  have e2 : (⟨[("x", ⟨1, t1 + 60000, none⟩)], ⟨3, 60000, blockDur⟩⟩ :
      RateLimiter).isAllowed "x" t2 =
      (true, ⟨[("x", ⟨2, t1 + 60000, none⟩)], ⟨3, 60000, blockDur⟩⟩) := by
    rw [RateLimiter.isAllowed_increment
      ⟨[("x", ⟨1, t1 + 60000, none⟩)], ⟨3, 60000, blockDur⟩⟩ "x" t2
      ⟨1, t1 + 60000, none⟩ rfl rfl (by simp; omega) (show ¬((3 : Nat) ≤ 1) by decide),
      RateLimiter.cleanup_keep_window t2 "x" ⟨1, t1 + 60000, none⟩ [] (by simp; omega)]
    rfl
  have e3 : (⟨[("x", ⟨2, t1 + 60000, none⟩)], ⟨3, 60000, blockDur⟩⟩ :
      RateLimiter).isAllowed "x" t3 =
      (true, ⟨[("x", ⟨3, t1 + 60000, none⟩)], ⟨3, 60000, blockDur⟩⟩) := by
    rw [RateLimiter.isAllowed_increment
      ⟨[("x", ⟨2, t1 + 60000, none⟩)], ⟨3, 60000, blockDur⟩⟩ "x" t3
      ⟨2, t1 + 60000, none⟩ rfl rfl (by simp; omega) (show ¬((3 : Nat) ≤ 2) by decide),
      RateLimiter.cleanup_keep_window t3 "x" ⟨2, t1 + 60000, none⟩ [] (by simp; omega)]
    rfl
  have e4 : (⟨[("x", ⟨3, t1 + 60000, none⟩)], ⟨3, 60000, blockDur⟩⟩ :
      RateLimiter).isAllowed "x" t4 =
      (false, ⟨[("x", ⟨3, t1 + 60000, some (t4 + blockDur)⟩)], ⟨3, 60000, blockDur⟩⟩) := by
    rw [RateLimiter.isAllowed_block
      ⟨[("x", ⟨3, t1 + 60000, none⟩)], ⟨3, 60000, blockDur⟩⟩ "x" t4
      ⟨3, t1 + 60000, none⟩ rfl rfl (by simp; omega) (show (3 : Nat) ≤ 3 by decide),
      RateLimiter.cleanup_keep_window t4 "x" ⟨3, t1 + 60000, none⟩ [] (by simp; omega)]
    rfl
  have e5 : (⟨[("x", ⟨3, t1 + 60000, some (t4 + blockDur)⟩)], ⟨3, 60000, blockDur⟩⟩ :
      RateLimiter).isAllowed "x" t5 =
      (false, ⟨RateLimiter.cleanup t5 [("x", ⟨3, t1 + 60000, some (t4 + blockDur)⟩)],
        ⟨3, 60000, blockDur⟩⟩) := by
    apply RateLimiter.isAllowed_blocked
      ⟨[("x", ⟨3, t1 + 60000, some (t4 + blockDur)⟩)], ⟨3, 60000, blockDur⟩⟩ "x" t5
      ⟨3, t1 + 60000, some (t4 + blockDur)⟩ rfl
    simp only [blockActive, decide_eq_true_eq]
    omega
  refine ⟨?_, ?_, ?_⟩
  · simp [runCalls, e1, e2, e3, e4]
  · simp [runCalls, e1, e2, e3, e4, lookupEntry]
  · simp [runCalls, e1, e2, e3, e4, e5]

/-- Witness for C2: the concrete instance with all four calls at instant 0
and a fifth call at instant 1 under a 300000 ms block duration. -/
theorem c2_rate_limiter_witness :
    (runCalls ⟨[], ⟨3, 60000, 300000⟩⟩ "x" [0, 0, 0, 0]).1 = [true, true, true, false] :=
  (c2_rate_limiter_theorem 300000 0 0 0 0 1 (by decide) (by decide) (by decide)
    (by decide) (by decide) (by decide)).1

/-- C9: reset deletes the whole entry of one identifier, including any
active block, and leaves every other identifier unchanged; the admission
check immediately following a reset of that identifier accepts and opens a
fresh window with count 1, whatever state the identifier was in before.
The hypothesis states the Map invariant that keys are unique. -/
theorem c9_reset_theorem (rl : RateLimiter) (k : String) (t : Nat)
    (hnd : (rl.requests.map Prod.fst).Nodup) :
    lookupEntry (rl.reset k).requests k = none
    ∧ (∀ k2, k2 ≠ k → lookupEntry (rl.reset k).requests k2 = lookupEntry rl.requests k2)
    ∧ ((rl.reset k).isAllowed k t).1 = true
    ∧ lookupEntry ((rl.reset k).isAllowed k t).2.requests k =
        some ⟨1, t + rl.config.windowMs, none⟩ := by
  have h1 : lookupEntry (rl.reset k).requests k = none :=
    lookupEntry_deleteEntry_self rl.requests k hnd
  refine ⟨h1, ?_, ?_, ?_⟩
  · intro k2 hk2
    exact lookupEntry_deleteEntry_ne rl.requests k k2 hk2
  · rw [RateLimiter.isAllowed_fresh _ _ _ h1]
  · rw [RateLimiter.isAllowed_fresh _ _ _ h1]
    exact lookupEntry_setEntry_self _ _ _

/-- Witness for C9: resetting a blocked identifier and checking again at
instant 0 accepts. -/
theorem c9_reset_witness :
    (((⟨[("x", ⟨3, 99, some 500⟩)], ⟨3, 60000, 300000⟩⟩ : RateLimiter).reset "x").isAllowed
      "x" 0).1 = true :=
  ( c9_reset_theorem ⟨[("x", ⟨3, 99, some 500⟩)], ⟨3, 60000, 300000⟩⟩ "x" 0
    (by decide)).2.2.1

/-- Truthiness of an optional JavaScript numeric field: present and
nonzero (0 is falsy). -/
def jsTruthyInt (n : Option Int) : Bool :=
  match n with
  | none => false
  | some v => decide (v ≠ 0)

/-- OAuth2TokenInfo from the types module: the cached token state.
expires_at is the wall-clock instant computed on storage. -/
structure OAuth2TokenInfo where
  access_token : String
  token_type : String
  expires_at : Int
  scope : Option String
  refresh_token : Option String
  isExpired : Bool
deriving DecidableEq, Repr

/-- Success shape of the token endpoint after parsing. -/
structure OAuth2TokenResponse where
  access_token : String
  token_type : String
  expires_in : Int
  refresh_token : Option String
  scope : Option String
  created_at : Int
deriving DecidableEq, Repr

/-- Raw token endpoint response body, every field optional. -/
structure TokenResponseBody where
  error : Option String
  error_description : Option String
  access_token : Option String
  token_type : Option String
  expires_in : Option Int
  refresh_token : Option String
  scope : Option String
  created_at : Option Int
deriving DecidableEq, Repr

/-- OAuth2TokenRequest from the types module. -/
structure OAuth2TokenRequest where
  grant_type : String
  client_id : String
  client_secret : String
  username : Option String
  password : Option String
  refresh_token : Option String
  scope : Option String
deriving DecidableEq, Repr

/-- Validators.validateGrantType: one of the three supported grants. -/
def Validators.validateGrantType (grantType : String) : Except ErrObj String :=
  if grantType = "client_credentials" ∨ grantType = "password" ∨
      grantType = "refresh_token" then Except.ok grantType
  else Except.error (mkValidationError
    "Invalid grant type. Must be one of: client_credentials, password, refresh_token")

/-- Validators.validateClientId: required, nonempty after trim, at least
10 characters. -/
def Validators.validateClientId (clientId : String) : Except ErrObj String :=
  if clientId = "" then Except.error (mkValidationError "OAuth client ID is required")
  else if (jsTrim clientId).length = 0 then
    Except.error (mkValidationError "OAuth client ID cannot be empty")
  else if (jsTrim clientId).length < 10 then
    Except.error (mkValidationError "OAuth client ID appears to be invalid")
  else Except.ok (jsTrim clientId)

/-- Validators.validateClientSecret: required, nonempty after trim, at
least 10 characters. -/
def Validators.validateClientSecret (clientSecret : String) : Except ErrObj String :=
  if clientSecret = "" then
    Except.error (mkValidationError "OAuth client secret is required")
  else if (jsTrim clientSecret).length = 0 then
    Except.error (mkValidationError "OAuth client secret cannot be empty")
  else if (jsTrim clientSecret).length < 10 then
    Except.error (mkValidationError "OAuth client secret appears to be invalid")
  else Except.ok (jsTrim clientSecret)

/-- Validators.validateScope on a string argument: trim, cap at 200. -/
def Validators.validateScope (scope : String) : Except ErrObj String :=
  if (jsTrim scope).length > 200 then
    Except.error (mkValidationError "OAuth scope is too long. Maximum length is 200 characters.")
  else Except.ok (jsTrim scope)

/-- Validators.validateOAuthUsername: required, nonempty after trim, at
most 100 characters. -/
def Validators.validateOAuthUsername (username : String) : Except ErrObj String :=
  if username = "" then
    Except.error (mkValidationError "OAuth username is required for password grant")
  else if (jsTrim username).length = 0 then
    Except.error (mkValidationError "OAuth username cannot be empty")
  else if (jsTrim username).length > 100 then
    Except.error (mkValidationError
      "OAuth username is too long. Maximum length is 100 characters.")
  else Except.ok (jsTrim username)

/-- Validators.validateOAuthPassword: required, nonempty after trim. -/
def Validators.validateOAuthPassword (password : String) : Except ErrObj String :=
  if password = "" then
    Except.error (mkValidationError "OAuth password is required for password grant")
  else if (jsTrim password).length = 0 then
    Except.error (mkValidationError "OAuth password cannot be empty")
  else Except.ok (jsTrim password)

/-- Validators.validateRefreshToken: required, nonempty after trim. -/
def Validators.validateRefreshToken (refreshToken : String) : Except ErrObj String :=
  if refreshToken = "" then
    Except.error (mkValidationError "OAuth refresh token is required")
  else if (jsTrim refreshToken).length = 0 then
    Except.error (mkValidationError "OAuth refresh token cannot be empty")
  else Except.ok (jsTrim refreshToken)

/-- TalkSASAOAuth2Client.validateTokenRequest: validate the grant type,
client id and client secret, the scope when truthy, the username and
password for the password grant, and the refresh token for the
refresh_token grant. -/
def TalkSASAOAuth2Client.validateTokenRequest (request : OAuth2TokenRequest) :
    Except ErrObj OAuth2TokenRequest := do
  let gt ← Validators.validateGrantType request.grant_type
  let cid ← Validators.validateClientId request.client_id
  let cs ← Validators.validateClientSecret request.client_secret
  let sc ← if jsTruthyStr request.scope then
      Except.map some (Validators.validateScope (request.scope.getD ""))
    else Except.ok none
  let up ← if request.grant_type = "password" then
      if !jsTruthyStr request.username || !jsTruthyStr request.password then
        Except.error (mkValidationError
          "Username and password are required for password grant")
      else do
        let u ← Validators.validateOAuthUsername (request.username.getD "")
        let p ← Validators.validateOAuthPassword (request.password.getD "")
        Except.ok (some u, some p)
    else Except.ok ((none : Option String), (none : Option String))
  let rt ← if request.grant_type = "refresh_token" then
      if !jsTruthyStr request.refresh_token then
        Except.error (mkValidationError
          "Refresh token is required for refresh_token grant")
      else Except.map some (Validators.validateRefreshToken (request.refresh_token.getD ""))
    else Except.ok (none : Option String)
  Except.ok ⟨gt, cid, cs, up.1, up.2, rt, sc⟩

/-- TalkSASAOAuth2Client.parseTokenResponse: a truthy error field maps to
an authentication error using the description when present; a falsy
access_token maps to a generic API error with the fixed message; otherwise
the response is returned with token_type defaulting to Bearer, expires_in
defaulting to 3600 and created_at defaulting to the current instant. -/
def TalkSASAOAuth2Client.parseTokenResponse (data : TokenResponseBody) (now : Int) :
    Except ErrObj OAuth2TokenResponse :=
  if jsTruthyStr data.error then
    Except.error (mkAuthenticationError
      (if jsTruthyStr data.error_description then data.error_description.getD ""
       else if jsTruthyStr data.error then data.error.getD ""
       else "OAuth token request failed"))
  else if !jsTruthyStr data.access_token then
    Except.error (mkAPIError "Invalid token response: missing access_token" none false)
  else
    Except.ok ⟨data.access_token.getD "",
      if jsTruthyStr data.token_type then data.token_type.getD "" else "Bearer",
      if jsTruthyInt data.expires_in then data.expires_in.getD 0 else 3600,
      data.refresh_token,
      data.scope,
      if jsTruthyInt data.created_at then data.created_at.getD 0 else now⟩

/-- Storage of a parsed token response as performed by getAccessToken and
requestTokenWithPassword: expires_at is the current instant plus
expires_in seconds in milliseconds, and isExpired is reset. -/
def TalkSASAOAuth2Client.storeToken (resp : OAuth2TokenResponse) (now : Int) :
    OAuth2TokenInfo :=
  ⟨resp.access_token, resp.token_type, now + resp.expires_in * 1000, resp.scope,
   resp.refresh_token, false⟩

/-- TalkSASAOAuth2Client.isTokenExpired: no token counts as expired; a
token is expired once the current instant reaches expires_at minus the
5-minute clock-skew buffer. -/
def TalkSASAOAuth2Client.isTokenExpired (tokenInfo : Option OAuth2TokenInfo) (now : Int) :
    Bool :=
  match tokenInfo with
  | none => true
  | some t => decide (t.expires_at - 5 * 60 * 1000 ≤ now)

/-- TalkSASAOAuth2Client.isTokenValid: a token is present and not expired. -/
def TalkSASAOAuth2Client.isTokenValid (tokenInfo : Option OAuth2TokenInfo) (now : Int) :
    Bool :=
  tokenInfo.isSome && !(TalkSASAOAuth2Client.isTokenExpired tokenInfo now)

/-- Mutable session state of the OAuth2 client. -/
structure OAuth2State where
  clientId : String
  clientSecret : String
  tokenInfo : Option OAuth2TokenInfo
deriving DecidableEq, Repr

/-- Observable outcome of a token-lifecycle call: the returned or thrown
value, the token state afterwards, and how many times the transport was
invoked (each invocation stands for one makeRequest call, itself wrapped
in Utils.retry, which is modelled separately). -/
structure OAuthCallResult (α : Type) where
  result : Except ErrObj α
  tokenInfo : Option OAuth2TokenInfo
  networkCalls : Nat

/-- TalkSASAOAuth2Client.requestToken: validate the request, send it, and
parse the response; returns the outcome and the number of transport
invocations (0 when validation fails before any network call). -/
def TalkSASAOAuth2Client.requestToken
    (transport : OAuth2TokenRequest → Except ErrObj TokenResponseBody)
    (request : OAuth2TokenRequest) (now : Int) :
    Except ErrObj OAuth2TokenResponse × Nat :=
  match TalkSASAOAuth2Client.validateTokenRequest request with
  | Except.error e => (Except.error e, 0)
  | Except.ok vreq =>
    match transport vreq with
    | Except.error e => (Except.error e, 1)
    | Except.ok body => (TalkSASAOAuth2Client.parseTokenResponse body now, 1)

/-- TalkSASAOAuth2Client.refreshToken: fail with a ValidationError before
any network call when no refresh token is stored (absent token state or a
falsy refresh_token field); otherwise request a refresh_token grant and on
success replace the stored token, keeping the previous refresh token when
the response omits a new one. -/
def TalkSASAOAuth2Client.refreshToken (st : OAuth2State)
    (transport : OAuth2TokenRequest → Except ErrObj TokenResponseBody) (now : Int) :
    OAuthCallResult OAuth2TokenResponse :=
  match st.tokenInfo with
  | none => ⟨Except.error (mkValidationError "No refresh token available"), st.tokenInfo, 0⟩
  | some ti =>
    if !jsTruthyStr ti.refresh_token then
      ⟨Except.error (mkValidationError "No refresh token available"), st.tokenInfo, 0⟩
    else
      match TalkSASAOAuth2Client.requestToken transport
        ⟨"refresh_token", st.clientId, st.clientSecret, none, none,
          ti.refresh_token, none⟩ now with
      | (Except.error e, n) => ⟨Except.error e, st.tokenInfo, n⟩
      | (Except.ok resp, n) =>
        ⟨Except.ok resp, some ⟨resp.access_token, resp.token_type,
          now + resp.expires_in * 1000, resp.scope,
          if jsTruthyStr resp.refresh_token then resp.refresh_token else ti.refresh_token,
          false⟩, n⟩

/-- TalkSASAOAuth2Client.revokeToken: with no cached token (or a falsy
access_token) return true without any network call; otherwise issue the
revoke call, clear the local token in every outcome, return true on
success and propagate the error on failure. The transport argument is the
outcome the revoke request would have. -/
def TalkSASAOAuth2Client.revokeToken (st : OAuth2State) (transport : Except ErrObj Unit) :
    OAuthCallResult Bool :=
  match st.tokenInfo with
  | none => ⟨Except.ok true, st.tokenInfo, 0⟩
  | some ti =>
    if ti.access_token = "" then ⟨Except.ok true, st.tokenInfo, 0⟩
    else
      match transport with
      | Except.ok _ => ⟨Except.ok true, none, 1⟩
      | Except.error e => ⟨Except.error e, none, 1⟩

/-- C3: a present token is treated as expired exactly when the current
instant has reached expires_at minus the 5-minute (300000 ms) buffer;
after storing a token with expires_in 3600 at some instant, the token is
valid at that instant, invalid at every instant from issuedAt + 3600000 -
300000 on, and in particular invalid at issuedAt + 3600000 - 1; and
refreshToken with no stored refresh token fails with a ValidationError
without invoking the transport. -/
theorem c3_token_expiry_theorem :
    (∀ (ti : OAuth2TokenInfo) (now : Int),
      TalkSASAOAuth2Client.isTokenExpired (some ti) now =
        decide (ti.expires_at - 300000 ≤ now))
    ∧ (∀ (resp : OAuth2TokenResponse) (issuedAt : Int), resp.expires_in = 3600 →
        TalkSASAOAuth2Client.isTokenValid
          (some (TalkSASAOAuth2Client.storeToken resp issuedAt)) issuedAt = true
        ∧ (∀ now : Int, issuedAt + 3300000 ≤ now →
            TalkSASAOAuth2Client.isTokenValid
              (some (TalkSASAOAuth2Client.storeToken resp issuedAt)) now = false)
        ∧ TalkSASAOAuth2Client.isTokenValid
            (some (TalkSASAOAuth2Client.storeToken resp issuedAt))
            (issuedAt + 3600000 - 1) = false)
    ∧ (∀ (st : OAuth2State)
        (transport : OAuth2TokenRequest → Except ErrObj TokenResponseBody) (now : Int),
        (st.tokenInfo = none ∨ (∃ ti, st.tokenInfo = some ti ∧ ti.refresh_token = none)) →
        TalkSASAOAuth2Client.refreshToken st transport now =
          ⟨Except.error (mkValidationError "No refresh token available"),
            st.tokenInfo, 0⟩) := by
  refine ⟨?_, ?_, ?_⟩
  · intro ti now
    show decide (ti.expires_at - 5 * 60 * 1000 ≤ now) = decide (ti.expires_at - 300000 ≤ now)
    norm_num
  · intro resp issuedAt hexp
    refine ⟨?_, ?_, ?_⟩
    · simp only [TalkSASAOAuth2Client.isTokenValid, TalkSASAOAuth2Client.isTokenExpired,
        TalkSASAOAuth2Client.storeToken, hexp, Option.isSome_some, Bool.true_and,
        Bool.not_eq_true', decide_eq_false_iff_not]
      omega
    · intro now hnow
      simp only [TalkSASAOAuth2Client.isTokenValid, TalkSASAOAuth2Client.isTokenExpired,
        TalkSASAOAuth2Client.storeToken, hexp, Option.isSome_some, Bool.true_and,
        Bool.not_eq_false', decide_eq_true_eq]
      omega
    · simp only [TalkSASAOAuth2Client.isTokenValid, TalkSASAOAuth2Client.isTokenExpired,
        TalkSASAOAuth2Client.storeToken, hexp, Option.isSome_some, Bool.true_and,
        Bool.not_eq_false', decide_eq_true_eq]
      omega
  · intro st transport now hcase
    obtain ⟨cid, csec, tinfo⟩ := st
    rcases hcase with hnone | ⟨ti, hsome, hrt⟩
    · simp only at hnone
      subst hnone
      rfl
    · simp only at hsome
      subst hsome
      simp [TalkSASAOAuth2Client.refreshToken, hrt, jsTruthyStr]

/-- Witness for C3: a token stored at instant 0 with expires_in 3600 is
valid at instant 0. -/
theorem c3_token_expiry_witness :
    TalkSASAOAuth2Client.isTokenValid
      (some (TalkSASAOAuth2Client.storeToken ⟨"tok", "Bearer", 3600, none, none, 0⟩ 0)) 0 =
      true :=
  ( c3_token_expiry_theorem.2.1 ⟨"tok", "Bearer", 3600, none, none, 0⟩ 0 rfl).1

/-- C6 (amended): when no token is cached, or the cached token has an
empty access_token string, revokeToken returns true without any network
call (and in the empty-string case the cached record is left in place);
when a token with nonempty access_token is cached, the revoke call is
issued and the local token state is null afterwards in every outcome: on
remote success the call returns true, and on remote failure the error is
propagated with the local state still cleared. -/
theorem c6_revoke_theorem (st : OAuth2State) (transport : Except ErrObj Unit) :
    (st.tokenInfo = none →
      TalkSASAOAuth2Client.revokeToken st transport = ⟨Except.ok true, none, 0⟩)
    ∧ (∀ ti, st.tokenInfo = some ti → ti.access_token = "" →
        TalkSASAOAuth2Client.revokeToken st transport = ⟨Except.ok true, some ti, 0⟩)
    ∧ (∀ ti, st.tokenInfo = some ti → ti.access_token ≠ "" →
        (TalkSASAOAuth2Client.revokeToken st transport).tokenInfo = none
        ∧ (TalkSASAOAuth2Client.revokeToken st transport).networkCalls = 1
        ∧ (transport = Except.ok () →
            (TalkSASAOAuth2Client.revokeToken st transport).result = Except.ok true)
        ∧ (∀ e, transport = Except.error e →
            (TalkSASAOAuth2Client.revokeToken st transport).result = Except.error e)) := by
  refine ⟨?_, ?_, ?_⟩
  · intro h
    simp [TalkSASAOAuth2Client.revokeToken, h]
  · intro ti h hacc
    simp [TalkSASAOAuth2Client.revokeToken, h, hacc]
  · intro ti h hacc
    cases transport with
    | ok v =>
      refine ⟨?_, ?_, ?_, ?_⟩
      · simp [TalkSASAOAuth2Client.revokeToken, h, hacc]
      · simp [TalkSASAOAuth2Client.revokeToken, h, hacc]
      · intro _
        simp [TalkSASAOAuth2Client.revokeToken, h, hacc]
      · intro e he
        exact absurd he (by simp)
    | error e0 =>
      refine ⟨?_, ?_, ?_, ?_⟩
      · simp [TalkSASAOAuth2Client.revokeToken, h, hacc]
      · simp [TalkSASAOAuth2Client.revokeToken, h, hacc]
      · intro he
        exact absurd he (by simp)
      · intro e he
        have : e0 = e := by
          have := Except.error.inj he
          exact this
        subst this
        simp [TalkSASAOAuth2Client.revokeToken, h, hacc]

/-- Witness for C6: revoking with no cached token succeeds trivially with
no network call. -/
theorem c6_revoke_witness :
    TalkSASAOAuth2Client.revokeToken ⟨"cid0000000", "csec000000", none⟩ (Except.ok ()) =
      ⟨Except.ok true, none, 0⟩ :=
  ( c6_revoke_theorem ⟨"cid0000000", "csec000000", none⟩ (Except.ok ())).1 rfl

/-- Counterexample to C6 as stated: a cached token whose access_token is
the empty string is a cached token, yet revokeToken returns true without
issuing the revoke call and without clearing the local state. -/
theorem c6_counterexample :
    (⟨"cid0000000", "csec000000", some ⟨"", "Bearer", 0, none, none, false⟩⟩ :
      OAuth2State).tokenInfo ≠ none
    ∧ TalkSASAOAuth2Client.revokeToken
        ⟨"cid0000000", "csec000000", some ⟨"", "Bearer", 0, none, none, false⟩⟩
        (Except.ok ()) =
        ⟨Except.ok true, some ⟨"", "Bearer", 0, none, none, false⟩, 0⟩ := by
  constructor
  · intro h
    exact Option.noConfusion h
  · rfl

/-- C10: a token endpoint body without an error field and with a nonempty
access_token parses successfully, token_type defaulting to Bearer and
expires_in defaulting to 3600 when the fields are absent, so that the
stored expires_at becomes now + 3600000 in that case; a body without an
error field whose access_token is absent or empty raises the generic API
error with the fixed missing-access_token message, not an authentication
error. -/
theorem c10_parse_theorem (body : TokenResponseBody) (now : Int) :
    (∀ a : String, body.error = none → body.access_token = some a → a ≠ "" →
      ∃ resp, TalkSASAOAuth2Client.parseTokenResponse body now = Except.ok resp
        ∧ resp.access_token = a
        ∧ (body.token_type = none → resp.token_type = "Bearer")
        ∧ (body.expires_in = none → resp.expires_in = 3600 ∧
            (TalkSASAOAuth2Client.storeToken resp now).expires_at = now + 3600000))
    ∧ (body.error = none → (body.access_token = none ∨ body.access_token = some "") →
        TalkSASAOAuth2Client.parseTokenResponse body now =
          Except.error (mkAPIError "Invalid token response: missing access_token"
            none false)) := by
  constructor
  · intro a he ha hne
    have h1 : jsTruthyStr body.error = false := by rw [he]; rfl
    have h2 : jsTruthyStr body.access_token = true := by
      rw [ha]
      simp [jsTruthyStr, hne]
    unfold TalkSASAOAuth2Client.parseTokenResponse
    rw [h1, h2]
    simp only [Bool.false_eq_true, if_false, Bool.not_true]
    refine ⟨_, rfl, ?_, ?_, ?_⟩
    · rw [ha]
      rfl
    · intro htt
      show (if jsTruthyStr body.token_type then body.token_type.getD "" else "Bearer") =
        "Bearer"
      rw [htt]
      rfl
    · intro hei
      constructor
      · show (if jsTruthyInt body.expires_in then body.expires_in.getD 0 else 3600) = 3600
        rw [hei]
        rfl
      · show now + (if jsTruthyInt body.expires_in then body.expires_in.getD 0
          else 3600) * 1000 = now + 3600000
        rw [hei]
        norm_num [jsTruthyInt]
  · intro he ha
    have h1 : jsTruthyStr body.error = false := by rw [he]; rfl
    have h2 : jsTruthyStr body.access_token = false := by
      rcases ha with h | h <;> rw [h] <;> rfl
    unfold TalkSASAOAuth2Client.parseTokenResponse
    rw [h1, h2]
    simp

/-- Witness for C10: an empty body (no error, no access_token) yields the
generic API error with the fixed message. -/
theorem c10_parse_witness :
    TalkSASAOAuth2Client.parseTokenResponse
      ⟨none, none, none, none, none, none, none, none⟩ 5 =
      Except.error (mkAPIError "Invalid token response: missing access_token" none false) :=
  (c10_parse_theorem ⟨none, none, none, none, none, none, none, none⟩ 5).2 rfl (Or.inl rfl)
